import Mathlib

/-!
# Verification of the KR_Cal tray-calendar applet

Shallow embedding of the core of src/lib/tray.py and
src/lib/holidays_provider.py: the month-grid layout of
CalendarPopup.show_month (including the Sunday-first
calendar.Calendar(calendar.SUNDAY).monthdayscalendar computation of the
Python standard library), the popup state machine (show_month / hide /
destroy), the action-queue drain loop, the hover heuristic, the
scheduling fallbacks, and the anchor-position computations.
-/

namespace KRCal

/-! ## Python calendar module, specialized as used by the code

The code calls calendar.Calendar(calendar.SUNDAY).monthdayscalendar,
with calendar.SUNDAY = 6 as firstweekday.  The definitions below embed
the CPython implementations of isleap, monthrange (via the proleptic
Gregorian ordinal used by datetime.date.weekday) and
Calendar.itermonthdays / monthdayscalendar. -/

/-- Month lengths table of the calendar module (index 0 unused). -/
def mdays : List Nat := [0, 31, 28, 31, 30, 31, 30, 31, 31, 30, 31, 30, 31]

/-- calendar.isleap. -/
def isleap (y : Nat) : Bool := y % 4 == 0 && (y % 100 != 0 || y % 400 == 0)

/-- datetime: days before January 1 of year y in the proleptic Gregorian calendar. -/
def daysBeforeYear (y : Nat) : Nat :=
  (y - 1) * 365 + (y - 1) / 4 - (y - 1) / 100 + (y - 1) / 400

/-- datetime: days in year y strictly before month m. -/
def daysBeforeMonth (y m : Nat) : Nat :=
  (mdays.take m).foldl (· + ·) 0 + (if 2 < m && isleap y then 1 else 0)

/-- datetime.date(y, m, d).toordinal(): day count from 0001-01-01 (= ordinal 1). -/
def toordinal (y m d : Nat) : Nat := daysBeforeYear y + daysBeforeMonth y m + d

/-- datetime.date(y, m, d).weekday(): Monday = 0 .. Sunday = 6; ordinal 1 was a Monday. -/
def pyWeekday (y m d : Nat) : Nat := (toordinal y m d + 6) % 7

/-- Second component of calendar.monthrange: the number of days of month m of year y. -/
def ndays (y m : Nat) : Nat :=
  mdays.getD m 0 + (if m == 2 && isleap y then 1 else 0)

/-- calendar.Calendar(firstweekday = 6).itermonthdays(y, m): leading zeros up to
the first day of the month, the day numbers, trailing zeros padding the last week. -/
def itermonthdays (y m : Nat) : List Nat :=
  let day1 := pyWeekday y m 1
  let nd := ndays y m
  let before := (((day1 : Int) - 6) % 7).toNat
  let after := ((6 - (day1 : Int) - (nd : Int)) % 7).toNat
  List.replicate before 0 ++ (List.range nd).map (· + 1) ++ List.replicate after 0

/-- Slicing step for days[i:i+7] for i in range(0, len(days), 7), as done by
Calendar.monthdayscalendar: structural recursion on a step counter that starts
at the list length (every step consumes at least one element, so the counter
never runs out). -/
def chunks7Go : Nat → List Nat → List (List Nat)
  | _, [] => []
  | 0, _ :: _ => []
  | n + 1, a :: rest => (a :: rest.take 6) :: chunks7Go n (rest.drop 6)

/-- Slicing days[i:i+7] for i in range(0, len(days), 7). -/
def chunks7 (l : List Nat) : List (List Nat) := chunks7Go l.length l

/-- calendar.Calendar(calendar.SUNDAY).monthdayscalendar(y, m): the weeks of the
month as Sunday-first lists of 7 day numbers, 0 for days outside the month. -/
def monthdayscalendar (y m : Nat) : List (List Nat) :=
  chunks7 (itermonthdays y m)

/-! ## Dates and holidays -/

/-- datetime.date as used by the popup (plain triple, structural equality). -/
structure Date where
  year : Nat
  month : Nat
  day : Nat
deriving DecidableEq, Repr

/-- The holidays mapping passed to CalendarPopup: date keys with name values. -/
abbrev Holidays := List (Date × String)

/-- Python membership test d in self.holidays (a key lookup). -/
def holidayMem (hs : Holidays) (d : Date) : Bool := hs.any (fun p => p.1 == d)

/-! ## The day-cell rendering of CalendarPopup.show_month -/

/-- One grid cell of the rebuilt month grid: a blank label, or a day label
with its foreground and background colors. -/
inductive Cell where
  | blank : Cell
  | day (n : Nat) (fg : String) (bg : String) : Cell
deriving DecidableEq, Repr

/-- The body of the inner loop of show_month for column c and entry day of a
week of monthdayscalendar: blank label on 0, otherwise a day label whose
foreground starts black, becomes red in column 0, blue in column 6, and is
overridden to red for a holiday; background highlights today. -/
def cellOf (hs : Holidays) (today : Date) (y m c day : Nat) : Cell :=
  if day == 0 then Cell.blank
  else
    let d : Date := ⟨y, m, day⟩
    let fg0 : String := "#000000"
    let fg1 := if c == 0 then "#c00000" else if c == 6 then "#0060c0" else fg0
    let fg2 := if holidayMem hs d then "#c00000" else fg1
    let bg := if d == today then "#e8e8e8" else "#ffffff"
    Cell.day day fg2 bg

/-- The day number carried by a cell, if any (observation used to state that no
day number is duplicated or skipped). -/
def dayNum : Cell → Option Nat
  | Cell.blank => none
  | Cell.day n _ _ => some n

/-- The inner loop for c, day in enumerate(week), carrying the column index. -/
def renderWeek (hs : Holidays) (today : Date) (y m : Nat) : Nat → List Nat → List Cell
  | _, [] => []
  | c, d :: rest => cellOf hs today y m c d :: renderWeek hs today y m (c + 1) rest

/-- The full rebuilt day-cell grid of show_month: one rendered row per week of
monthdayscalendar y m. -/
def renderGrid (hs : Holidays) (today : Date) (y m : Nat) : List (List Cell) :=
  (monthdayscalendar y m).map (renderWeek hs today y m 0)

/-! ## CalendarPopup state -/

/-- Observable state of a CalendarPopup: the cached displayed month
(current_year / current_month, None before the first build), visibility
(deiconify / withdraw), the window position set through geometry, the child
day-cell widgets of the frame together with a rebuild counter (to observe
grid rebuilds), the destroyed flag of the underlying Tk windows, and whether
root is still able to schedule callbacks via after. -/
structure PState where
  currentYear : Option Nat
  currentMonth : Option Nat
  visible : Bool
  pos : Int × Int
  grid : List (List Cell)
  buildCount : Nat
  destroyed : Bool
  rootExists : Bool
deriving DecidableEq, Repr

/-- State of the popup right after CalendarPopup.__init__: nothing displayed,
window withdrawn, empty frame. -/
def initPState : PState :=
  { currentYear := none, currentMonth := none, visible := false, pos := (0, 0),
    grid := [], buildCount := 0, destroyed := false, rootExists := true }

/-- Position after the geometry call of show_month: moved only when both x and
y were given (if x is not None and y is not None). -/
def geomPos (p : Int × Int) : Option Int → Option Int → Int × Int
  | some x, some y => (x, y)
  | some _, none => p
  | none, _ => p

/-- CalendarPopup.show_month(year, month, x, y): on a cache hit (year and month
both equal the currently displayed ones) only reposition and deiconify;
otherwise record the new month, rebuild the grid and deiconify. -/
def showMonth (hs : Holidays) (today : Date) (s : PState) (year month : Nat)
    (ox oy : Option Int) : PState :=
  if some year == s.currentYear && some month == s.currentMonth then
    { s with pos := geomPos s.pos ox oy, visible := true }
  else
    { s with currentYear := some year, currentMonth := some month,
             grid := renderGrid hs today year month,
             buildCount := s.buildCount + 1,
             pos := geomPos s.pos ox oy,
             visible := true }

/-- CalendarPopup.hide: withdraw the window, everything else untouched. -/
def hideP (s : PState) : PState := { s with visible := false }

/-- The body of the try block of CalendarPopup.destroy
(self.popup.destroy(); self.root.quit()): modelled as failing with a TclError
when the windows are already destroyed, succeeding otherwise. -/
def tkDestroyQuit (s : PState) : Except String PState :=
  if s.destroyed then Except.error "TclError"
  else Except.ok { s with destroyed := true, visible := false }

/-- CalendarPopup.destroy: the try/except Exception: pass wrapper around
tkDestroyQuit — any error is swallowed and the state left as it was. -/
def destroyP (s : PState) : PState :=
  match tkDestroyQuit s with
  | Except.ok s2 => s2
  | Except.error _ => s

/-! ## The action queue and its GUI-thread drain task -/

/-- A queued zero-argument action: run against the popup state, None models
the action raising an exception. -/
abbrev Action := PState → Option PState

/-- Executing one dequeued action inside try: action() except Exception: pass —
a raising action leaves the state unchanged. -/
def runAction (s : PState) (a : Action) : PState := (a s).getD s

/-- The while-not-empty loop of _process_queue: execute all currently queued
actions in FIFO (arrival) order, each failure swallowed. -/
def drainAll (q : List Action) (s : PState) : PState := q.foldl runAction s

/-- One run of _process_queue: drain the queue, then reschedule itself via
root.after(80, ...) — which succeeds exactly when root still exists (the
except branch swallows the failure and stops the polling). -/
def processQueue (q : List Action) (s : PState) : PState × Bool :=
  let s2 := drainAll q s
  (s2, s2.rootExists)

/-- The action enqueued by _schedule_show: show_month(year, month, x, y). -/
def showAction (hs : Holidays) (today : Date) (year month : Nat) (x y : Int) : Action :=
  fun s => some (showMonth hs today s year month (some x) (some y))

/-- The action enqueued by _schedule_hide: popup.hide(). -/
def hideAction : Action := fun s => some (hideP s)

/-! ## Toggle -/

/-- Python truthiness fallback v or default for an Optional[int]: None and 0
are falsy. Used for self.popup.current_year or datetime.datetime.now().year. -/
def pyOr (o : Option Nat) (dflt : Nat) : Nat :=
  match o with
  | none => dflt
  | some v => if v == 0 then dflt else v

/-- The _do_toggle closure of TrayApp._toggle_popup, run on the GUI thread:
hide when the popup window state is normal (shown), otherwise show_month at
the clamped anchor (max 10 (sx - 300), max 10 (sy - 220)) with the
last-displayed year and month, defaulting to the current date. -/
def doToggle (hs : Holidays) (today : Date) (nowYear nowMonth : Nat)
    (sx sy : Int) (s : PState) : PState :=
  if s.visible then hideP s
  else
    showMonth hs today s (pyOr s.currentYear nowYear) (pyOr s.currentMonth nowMonth)
      (some (max 10 (sx - 300))) (some (max 10 (sy - 220)))

/-! ## Request dispatch fallbacks (queue not yet constructed) -/

/-- How a request leaves its caller: put on the action queue, scheduled
directly through root.after(0, ...), or silently dropped. -/
inductive Dispatch where
  | queued : Dispatch
  | ranSoon : Dispatch
  | dropped : Dispatch
deriving DecidableEq, Repr

/-- TrayApp._toggle_popup dispatch: enqueue when the action queue exists, else
fall back to root.after(0, _do_toggle) when that call is available, any failure
of it swallowed (dropped). -/
def toggleDispatch (queueExists rootAfterAvailable : Bool) : Dispatch :=
  if queueExists then Dispatch.queued
  else if rootAfterAvailable then Dispatch.ranSoon
  else Dispatch.dropped

/-- TrayApp._schedule_show dispatch: enqueue when the action queue exists,
otherwise nothing happens at all (no fallback in the code). -/
def scheduleShowDispatch (queueExists _rootAfterAvailable : Bool) : Dispatch :=
  if queueExists then Dispatch.queued else Dispatch.dropped

/-- TrayApp._schedule_hide dispatch: enqueue when the action queue exists,
otherwise nothing happens at all (no fallback in the code). -/
def scheduleHideDispatch (queueExists _rootAfterAvailable : Bool) : Dispatch :=
  if queueExists then Dispatch.queued else Dispatch.dropped

/-! ## Hover heuristic -/

/-- The near test of hover_monitor and tk_poll:
(sx - x) <= hover_distance and (sy - y) <= hover_distance. -/
def nearCorner (hoverDistance x y sx sy : Int) : Bool :=
  decide (sx - x ≤ hoverDistance) && decide (sy - y ≤ hoverDistance)

/-- A show or hide request issued by a hover loop iteration. -/
inductive Req where
  | reqShow : Req
  | reqHide : Req
deriving DecidableEq, Repr

/-- One iteration of the hover_monitor loop body with the popup present:
schedule show when near, schedule hide otherwise. -/
def hoverStep (hoverDistance x y sx sy : Int) : Req :=
  if nearCorner hoverDistance x y sx sy then Req.reqShow else Req.reqHide

/-! ## Anchor positions passed to show_month -/

/-- Coordinates computed in _do_toggle (x = max(10, sx - 300), y = max(10, sy - 220)). -/
def togglePos (sx sy : Int) : Int × Int := (max 10 (sx - 300), max 10 (sy - 220))

/-- Coordinates passed to _schedule_show by the WM_MOUSEMOVE branch of _wndproc. -/
def wndprocMovePos (sx sy : Int) : Int × Int := (max 10 (sx - 300), max 10 (sy - 220))

/-- Coordinates passed to show_month by the tk_poll loop when near. -/
def tkPollPos (sx sy : Int) : Int × Int := (max 10 (sx - 300), max 10 (sy - 220))

/-- Coordinates passed to _schedule_show by the hover_monitor loop when near. -/
def hoverMonitorPos (sx sy : Int) : Int × Int := (max 10 (sx - 300), max 10 (sy - 220))

/-- Coordinates of the initial show_month call in TrayApp.start:
GetSystemMetrics(0) - 300 and GetSystemMetrics(1) - 220, with no clamping. -/
def startInitialPos (sx sy : Int) : Int × Int := (sx - 300, sy - 220)

/-! ## HolidaysProvider -/

/-- A key of the opaque holidays.KR mapping: the library is external, so a key
is either a datetime.date or something else (filtered by isinstance). -/
abbrev KRKey := Date ⊕ String

/-- The opaque holidays.KR lookup: from the years list to its items, or an
exception (the code does not guard the call). -/
abbrev KRLib := List Nat → Except String (List (KRKey × String))

/-- HolidaysProvider.get_holidays: empty mapping when the holidays import
failed (lib unavailable); otherwise call holidays.KR(years=...) — whose
exception, if any, propagates — and keep the items whose key is a
datetime.date. -/
def get_holidays (lib : Option KRLib) (years : List Nat) : Except String Holidays :=
  match lib with
  | none => Except.ok []
  | some kr =>
    match kr years with
    | Except.error e => Except.error e
    | Except.ok items =>
      Except.ok (items.filterMap (fun p =>
        match p.1 with
        | Sum.inl d => some (d, p.2)
        | Sum.inr _ => none))

/-- A lookup whose call raises, modelling holidays.KR failing at call time. -/
def failingKR : KRLib := fun _ => Except.error "lookup failed"

/-- A lookup that succeeds with a single dated holiday item. -/
def newYearKR : KRLib := fun _ => Except.ok [(Sum.inl ⟨2025, 1, 1⟩, "New Year")]

/-- A popup state displaying January 2025, shown at (5, 5). -/
def sampleShown : PState :=
  { currentYear := some 2025, currentMonth := some 1, visible := true, pos := (5, 5),
    grid := renderGrid [] ⟨2025, 1, 2⟩ 2025 1, buildCount := 1,
    destroyed := false, rootExists := true }

/-! ## Helper lemmas about the week slicing -/

theorem chunks7Go_flatten :
    ∀ (n : Nat) (l : List Nat), l.length ≤ n → (chunks7Go n l).flatten = l := by
  intro n
  induction n with
  | zero =>
    intro l h
    cases l with
    | nil => rfl
    | cons a rest => simp at h
  | succ k ih =>
    intro l h
    cases l with
    | nil => rfl
    | cons a rest =>
      simp only [chunks7Go, List.flatten_cons]
      rw [ih (rest.drop 6) (by simp only [List.length_drop]; simp only [List.length_cons] at h; omega)]
      simp

theorem chunks7_flatten (l : List Nat) : (chunks7 l).flatten = l :=
  chunks7Go_flatten l.length l (Nat.le_refl _)

theorem chunks7Go_row_length :
    ∀ (n : Nat) (l : List Nat), l.length ≤ n → l.length % 7 = 0 →
      ∀ r ∈ chunks7Go n l, r.length = 7 := by
  intro n
  induction n with
  | zero =>
    intro l h hmod r hr
    cases l with
    | nil => simp [chunks7Go] at hr
    | cons a rest => simp at h
  | succ k ih =>
    intro l h hmod r hr
    cases l with
    | nil => simp [chunks7Go] at hr
    | cons a rest =>
      simp only [chunks7Go, List.mem_cons] at hr
      simp only [List.length_cons] at h hmod
      rcases hr with rfl | hr
      · simp only [List.length_cons, List.length_take]
        omega
      · exact ih (rest.drop 6) (by simp only [List.length_drop]; omega)
          (by simp only [List.length_drop]; omega) r hr

theorem itermonthdays_length_mod (y m : Nat) : (itermonthdays y m).length % 7 = 0 := by
  simp only [itermonthdays, List.length_append, List.length_replicate, List.length_map,
    List.length_range]
  omega

theorem monthdayscalendar_row_length (y m : Nat) :
    ∀ r ∈ monthdayscalendar y m, r.length = 7 :=
  chunks7Go_row_length _ _ (Nat.le_refl _) (itermonthdays_length_mod y m)

theorem monthdayscalendar_flatten (y m : Nat) :
    (monthdayscalendar y m).flatten = itermonthdays y m :=
  chunks7_flatten (itermonthdays y m)

theorem itermonthdays_filter (y m : Nat) :
    (itermonthdays y m).filter (fun d => d != 0) = (List.range (ndays y m)).map (· + 1) := by
  have h2 : ((List.range (ndays y m)).map (· + 1)).filter (fun d => d != 0)
      = (List.range (ndays y m)).map (· + 1) := by
    apply List.filter_eq_self.mpr
    intro a ha
    rcases List.mem_map.mp ha with ⟨b, _, rfl⟩
    simp
  simp only [itermonthdays, List.filter_append, List.filter_replicate, h2]
  simp

theorem count_range_map_succ (nd d : Nat) (h1 : 1 ≤ d) (h2 : d ≤ nd) :
    ((List.range nd).map (· + 1)).count d = 1 := by
  apply List.count_eq_one_of_mem
  · exact List.Nodup.map (fun a b hab => by omega) (List.nodup_range nd)
  · exact List.mem_map.mpr ⟨d - 1, List.mem_range.mpr (by omega), by omega⟩

/-! ## Helper lemmas about the rendered grid -/

theorem dayNum_cellOf (hs : Holidays) (today : Date) (y m c d : Nat) :
    dayNum (cellOf hs today y m c d) = if d = 0 then none else some d := by
  by_cases h : d = 0 <;> simp [cellOf, h, dayNum]

theorem cellOf_eq_blank_iff (hs : Holidays) (today : Date) (y m c d : Nat) :
    cellOf hs today y m c d = Cell.blank ↔ d = 0 := by
  by_cases h : d = 0 <;> simp [cellOf, h]

theorem renderWeek_length (hs : Holidays) (today : Date) (y m : Nat) :
    ∀ (w : List Nat) (c : Nat), (renderWeek hs today y m c w).length = w.length := by
  intro w
  induction w with
  | nil => intro c; rfl
  | cons d rest ih => intro c; simp [renderWeek, ih]

theorem renderWeek_filterMap (hs : Holidays) (today : Date) (y m : Nat) :
    ∀ (w : List Nat) (c : Nat),
      (renderWeek hs today y m c w).filterMap dayNum = w.filter (fun d => d != 0) := by
  intro w
  induction w with
  | nil => intro c; rfl
  | cons d rest ih =>
    intro c
    by_cases h : d = 0 <;>
      simp [renderWeek, List.filterMap_cons, dayNum_cellOf, h, ih]

theorem renderWeek_getD (hs : Holidays) (today : Date) (y m : Nat) :
    ∀ (w : List Nat) (c i : Nat), i < w.length →
      (renderWeek hs today y m c w).getD i Cell.blank
        = cellOf hs today y m (c + i) (w.getD i 0) := by
  intro w
  induction w with
  | nil => intro c i h; simp at h
  | cons d rest ih =>
    intro c i h
    cases i with
    | zero => simp [renderWeek]
    | succ j =>
      simp only [renderWeek, List.getD_cons_succ]
      rw [ih (c + 1) j (by simp only [List.length_cons] at h; omega)]
      rw [show c + 1 + j = c + (j + 1) from by omega]

theorem renderGrid_getD (hs : Holidays) (today : Date) (y m r : Nat)
    (hr : r < (monthdayscalendar y m).length) :
    (renderGrid hs today y m).getD r []
      = renderWeek hs today y m 0 ((monthdayscalendar y m).getD r []) := by
  have hr2 : r < (renderGrid hs today y m).length := by
    simpa [renderGrid] using hr
  rw [List.getD_eq_getElem _ _ hr2, List.getD_eq_getElem _ _ hr]
  simp [renderGrid]

theorem renderGrid_cell (hs : Holidays) (today : Date) (y m r c : Nat)
    (hr : r < (monthdayscalendar y m).length) (hc : c < 7) :
    ((renderGrid hs today y m).getD r []).getD c Cell.blank
      = cellOf hs today y m c (((monthdayscalendar y m).getD r []).getD c 0) := by
  rw [renderGrid_getD hs today y m r hr]
  have hlen : ((monthdayscalendar y m).getD r []).length = 7 := by
    apply monthdayscalendar_row_length
    rw [List.getD_eq_getElem _ _ hr]
    exact List.getElem_mem hr
  have := renderWeek_getD hs today y m ((monthdayscalendar y m).getD r []) 0 c (by omega)
  simpa using this

theorem renderGrid_dayNums (hs : Holidays) (today : Date) (y m : Nat) :
    (renderGrid hs today y m).flatten.filterMap dayNum
      = (List.range (ndays y m)).map (· + 1) := by
  rw [renderGrid, List.filterMap_flatten, List.map_map]
  have hmaps : (monthdayscalendar y m).map (List.filterMap dayNum ∘ renderWeek hs today y m 0)
      = (monthdayscalendar y m).map (List.filter (fun d => d != 0)) := by
    apply List.map_congr_left
    intro w _
    exact renderWeek_filterMap hs today y m w 0
  rw [hmaps, ← List.filter_flatten, monthdayscalendar_flatten]
  exact itermonthdays_filter y m

/-- Projections of showMonth that hold in both the cache-hit and the rebuild
branch: the displayed month always ends up being the requested one, the popup
is deiconified, and the destroyed / root flags are untouched. -/
theorem showMonth_proj (hs : Holidays) (today : Date) (s : PState) (y m : Nat)
    (ox oy : Option Int) :
    (showMonth hs today s y m ox oy).currentYear = some y
    ∧ (showMonth hs today s y m ox oy).currentMonth = some m
    ∧ (showMonth hs today s y m ox oy).visible = true
    ∧ (showMonth hs today s y m ox oy).rootExists = s.rootExists
    ∧ (showMonth hs today s y m ox oy).destroyed = s.destroyed := by
  by_cases h : (some y == s.currentYear && some m == s.currentMonth) = true
  · have h2 := h
    rw [Bool.and_eq_true, beq_iff_eq, beq_iff_eq] at h2
    refine ⟨?_, ?_, ?_, ?_, ?_⟩ <;> simp [showMonth, h, ← h2.1, ← h2.2]
  · refine ⟨?_, ?_, ?_, ?_, ?_⟩ <;> simp [showMonth, h]

/-! ## Claim theorems -/

/-- C1: for every (year, month) with month in [1,12], the grid rebuild of
CalendarPopup.show_month lays out exactly as many week rows as
calendar.Calendar(calendar.SUNDAY).monthdayscalendar(year, month) yields, each
row having 7 cells in Sunday-first order, a cell being blank exactly when the
corresponding entry is 0, and every day number 1..last-day-of-month appearing
exactly once. -/
theorem c1_show_month_grid_layout (hs : Holidays) (today : Date) (y m : Nat)
    (hy : 1 ≤ y) (hm1 : 1 ≤ m) (hm2 : m ≤ 12) :
    (renderGrid hs today y m).length = (monthdayscalendar y m).length
    ∧ (∀ row ∈ renderGrid hs today y m, row.length = 7)
    ∧ (∀ r c : Nat, r < (monthdayscalendar y m).length → c < 7 →
        (((renderGrid hs today y m).getD r []).getD c Cell.blank = Cell.blank
          ↔ ((monthdayscalendar y m).getD r []).getD c 0 = 0))
    ∧ (∀ d : Nat, 1 ≤ d → d ≤ ndays y m →
        ((renderGrid hs today y m).flatten.filterMap dayNum).count d = 1) := by
  refine ⟨by simp [renderGrid], ?_, ?_, ?_⟩
  · intro row hrow
    rcases List.mem_map.mp hrow with ⟨w, hw, rfl⟩
    rw [renderWeek_length]
    exact monthdayscalendar_row_length y m w hw
  · intro r c hr hc
    rw [renderGrid_cell hs today y m r c hr hc]
    exact cellOf_eq_blank_iff hs today y m c _
  · intro d hd1 hd2
    rw [renderGrid_dayNums hs today y m]
    exact count_range_map_succ (ndays y m) d hd1 hd2

/-- C1 witness: the layout property instantiated for January 2025 with no
holidays. -/
theorem c1_show_month_grid_layout_witness :
    (1 ≤ 2025 ∧ 1 ≤ 1 ∧ 1 ≤ 12)
    ∧ ((renderGrid [] ⟨2025, 10, 12⟩ 2025 1).length = (monthdayscalendar 2025 1).length
    ∧ (∀ row ∈ renderGrid [] ⟨2025, 10, 12⟩ 2025 1, row.length = 7)
    ∧ (∀ r c : Nat, r < (monthdayscalendar 2025 1).length → c < 7 →
        (((renderGrid [] ⟨2025, 10, 12⟩ 2025 1).getD r []).getD c Cell.blank = Cell.blank
          ↔ ((monthdayscalendar 2025 1).getD r []).getD c 0 = 0))
    ∧ (∀ d : Nat, 1 ≤ d → d ≤ ndays 2025 1 →
        ((renderGrid [] ⟨2025, 10, 12⟩ 2025 1).flatten.filterMap dayNum).count d = 1)) :=
  ⟨⟨by decide, by decide, by decide⟩,
   c1_show_month_grid_layout [] ⟨2025, 10, 12⟩ 2025 1 (by decide) (by decide) (by decide)⟩

/-- The foreground color the code computes for a real day cell equals the
holiday-first chain of the specification: holiday red overrides the weekend
column colors. -/
theorem cellOf_day_color (hs : Holidays) (today : Date) (y m c d : Nat) (hd : d ≠ 0) :
    cellOf hs today y m c d
      = Cell.day d
          (if holidayMem hs ⟨y, m, d⟩ then "#c00000"
           else if c = 0 then "#c00000"
           else if c = 6 then "#0060c0"
           else "#000000")
          (if (⟨y, m, d⟩ : Date) = today then "#e8e8e8" else "#ffffff") := by
  by_cases h1 : holidayMem hs ⟨y, m, d⟩ <;> by_cases h2 : c = 0 <;> by_cases h3 : c = 6 <;>
    simp_all [cellOf]

/-- C2: every real day cell rendered by show_month has foreground red when its
date is a holiday key (regardless of column), else red in column 0 (Sunday),
else blue in column 6 (Saturday), else black — holiday coloring overrides
weekend coloring; the background highlights the current date. -/
theorem c2_day_cell_color (hs : Holidays) (today : Date) (y m r c : Nat)
    (hr : r < (monthdayscalendar y m).length) (hc : c < 7)
    (hday : ((monthdayscalendar y m).getD r []).getD c 0 ≠ 0) :
    ((renderGrid hs today y m).getD r []).getD c Cell.blank
      = Cell.day (((monthdayscalendar y m).getD r []).getD c 0)
          (if holidayMem hs ⟨y, m, ((monthdayscalendar y m).getD r []).getD c 0⟩ then "#c00000"
           else if c = 0 then "#c00000"
           else if c = 6 then "#0060c0"
           else "#000000")
          (if (⟨y, m, ((monthdayscalendar y m).getD r []).getD c 0⟩ : Date) = today
           then "#e8e8e8" else "#ffffff") := by
  rw [renderGrid_cell hs today y m r c hr hc]
  exact cellOf_day_color hs today y m c _ hday

/-- C2 witness: with HolidaySet = 2025-01-01 (New Year), January 2025 renders
day 1 — a Wednesday, column 3, neither Sunday nor Saturday — in red. -/
theorem c2_day_cell_color_witness :
    ((renderGrid [(⟨2025, 1, 1⟩, "New Year")] ⟨2025, 10, 12⟩ 2025 1).getD 0 []).getD 3 Cell.blank
      = Cell.day 1 "#c00000" "#ffffff" :=
  Eq.trans
    (c2_day_cell_color [(⟨2025, 1, 1⟩, "New Year")] ⟨2025, 10, 12⟩ 2025 1 0 3
      (by decide) (by decide) (by decide))
    (by decide)

/-- C3: when the popup already displays (year, month) — also after an
intervening hide() — show_month performs no grid rebuild (child widgets and
rebuild count unchanged), updates the position exactly when both coordinates
are given, and makes the popup visible. -/
theorem c3_show_month_cache_hit (hs : Holidays) (today : Date) (s : PState)
    (y m : Nat) (ox oy : Option Int)
    (hy : s.currentYear = some y) (hm : s.currentMonth = some m) :
    (showMonth hs today s y m ox oy).grid = s.grid
    ∧ (showMonth hs today s y m ox oy).buildCount = s.buildCount
    ∧ (showMonth hs today s y m ox oy).visible = true
    ∧ (showMonth hs today s y m ox oy).currentYear = some y
    ∧ (showMonth hs today s y m ox oy).currentMonth = some m
    ∧ (showMonth hs today s y m ox oy).pos = geomPos s.pos ox oy
    ∧ (∀ a b : Int, geomPos s.pos (some a) (some b) = (a, b))
    ∧ geomPos s.pos ox none = s.pos
    ∧ geomPos s.pos none oy = s.pos
    ∧ (showMonth hs today (hideP s) y m ox oy).grid = s.grid
    ∧ (showMonth hs today (hideP s) y m ox oy).buildCount = s.buildCount
    ∧ (showMonth hs today (hideP s) y m ox oy).visible = true := by
  refine ⟨?_, ?_, ?_, ?_, ?_, ?_, ?_, ?_, ?_, ?_, ?_, ?_⟩
  case refine_7 => intro a b; rfl
  case refine_8 => cases ox <;> rfl
  case refine_9 => rfl
  all_goals simp [showMonth, hideP, geomPos, hy, hm]

/-- C3 witness: a popup showing January 2025 keeps its grid, is repositioned
to the given coordinates and becomes visible on a repeated show_month, also
after a hide(). -/
theorem c3_show_month_cache_hit_witness :
    (sampleShown.currentYear = some 2025 ∧ sampleShown.currentMonth = some 1)
    ∧ (showMonth [] ⟨2025, 1, 2⟩ sampleShown 2025 1 (some 3) (some 4)).grid = sampleShown.grid
    ∧ (showMonth [] ⟨2025, 1, 2⟩ sampleShown 2025 1 (some 3) (some 4)).buildCount
        = sampleShown.buildCount
    ∧ (showMonth [] ⟨2025, 1, 2⟩ sampleShown 2025 1 (some 3) (some 4)).visible = true
    ∧ (showMonth [] ⟨2025, 1, 2⟩ sampleShown 2025 1 (some 3) (some 4)).pos
        = geomPos sampleShown.pos (some 3) (some 4)
    ∧ (showMonth [] ⟨2025, 1, 2⟩ (hideP sampleShown) 2025 1 (some 3) (some 4)).visible = true :=
  ⟨⟨rfl, rfl⟩,
   (c3_show_month_cache_hit [] ⟨2025, 1, 2⟩ sampleShown 2025 1 (some 3) (some 4) rfl rfl).1,
   (c3_show_month_cache_hit [] ⟨2025, 1, 2⟩ sampleShown 2025 1 (some 3) (some 4) rfl rfl).2.1,
   (c3_show_month_cache_hit [] ⟨2025, 1, 2⟩ sampleShown 2025 1 (some 3) (some 4) rfl rfl).2.2.1,
   (c3_show_month_cache_hit [] ⟨2025, 1, 2⟩ sampleShown 2025 1 (some 3) (some 4) rfl rfl).2.2.2.2.2.1,
   (c3_show_month_cache_hit [] ⟨2025, 1, 2⟩ sampleShown 2025 1 (some 3) (some 4) rfl rfl).2.2.2.2.2.2.2.2.2.2.2⟩

/-- C4: a drain run executes all queued actions in FIFO order, a raising
action is swallowed so the following queued actions still run, and the task
reschedules itself while root exists; in particular enqueuing show(2025, 1),
hide(), show(2025, 2) leaves the popup shown displaying 2025-02 after one
drain cycle, with the drain rescheduled. -/
theorem c4_queue_drain (hs : Holidays) (today : Date) (x y : Int) (s t : PState)
    (as bs : List Action) (bad : Action)
    (hroot : s.rootExists = true) (hbad : bad (drainAll as t) = none) :
    drainAll (as ++ bad :: bs) t = drainAll bs (drainAll as t)
    ∧ (processQueue
        [showAction hs today 2025 1 x y, hideAction, showAction hs today 2025 2 x y] s).1.visible
        = true
    ∧ (processQueue
        [showAction hs today 2025 1 x y, hideAction, showAction hs today 2025 2 x y] s).1.currentYear
        = some 2025
    ∧ (processQueue
        [showAction hs today 2025 1 x y, hideAction, showAction hs today 2025 2 x y] s).1.currentMonth
        = some 2
    ∧ (processQueue
        [showAction hs today 2025 1 x y, hideAction, showAction hs today 2025 2 x y] s).2
        = true := by
  constructor
  · have hb2 : bad (List.foldl runAction t as) = none := hbad
    simp only [drainAll, List.foldl_append, List.foldl_cons, runAction, hb2,
      Option.getD_none]
  · simp only [processQueue, drainAll, List.foldl_cons, List.foldl_nil, runAction,
      showAction, hideAction, Option.getD_some]
    refine ⟨?_, ?_, ?_, ?_⟩
    · exact (showMonth_proj hs today _ 2025 2 (some x) (some y)).2.2.1
    · exact (showMonth_proj hs today _ 2025 2 (some x) (some y)).1
    · exact (showMonth_proj hs today _ 2025 2 (some x) (some y)).2.1
    · rw [(showMonth_proj hs today _ 2025 2 (some x) (some y)).2.2.2.1]
      show (showMonth hs today s 2025 1 (some x) (some y)).rootExists = true
      rw [(showMonth_proj hs today s 2025 1 (some x) (some y)).2.2.2.1]
      exact hroot

/-- C4 witness: the drain properties at the initial popup state with a
concrete failing action in the middle of the queue. -/
theorem c4_queue_drain_witness :
    (initPState.rootExists = true ∧ (fun _ => none : Action) (drainAll [] initPState) = none)
    ∧ drainAll ([] ++ (fun _ => none : Action) :: [hideAction]) initPState
        = drainAll [hideAction] (drainAll [] initPState)
    ∧ (processQueue
        [showAction [] ⟨2025, 10, 12⟩ 2025 1 10 10, hideAction,
         showAction [] ⟨2025, 10, 12⟩ 2025 2 10 10] initPState).1.visible = true
    ∧ (processQueue
        [showAction [] ⟨2025, 10, 12⟩ 2025 1 10 10, hideAction,
         showAction [] ⟨2025, 10, 12⟩ 2025 2 10 10] initPState).1.currentYear = some 2025
    ∧ (processQueue
        [showAction [] ⟨2025, 10, 12⟩ 2025 1 10 10, hideAction,
         showAction [] ⟨2025, 10, 12⟩ 2025 2 10 10] initPState).1.currentMonth = some 2
    ∧ (processQueue
        [showAction [] ⟨2025, 10, 12⟩ 2025 1 10 10, hideAction,
         showAction [] ⟨2025, 10, 12⟩ 2025 2 10 10] initPState).2 = true :=
  ⟨⟨rfl, rfl⟩,
   c4_queue_drain [] ⟨2025, 10, 12⟩ 10 10 initPState initPState []
     [hideAction] (fun _ => none) rfl rfl⟩

/-- C5: the hover heuristic computes near as
(sx - x) <= hover_distance and (sy - y) <= hover_distance; with distance 220
and screen (1920, 1080), cursor (1800, 900) is near and (1000, 500) is not;
the loop requests show when near and hide otherwise. -/
theorem c5_hover_heuristic :
    (∀ hoverDistance x y sx sy : Int,
      nearCorner hoverDistance x y sx sy = true
        ↔ (sx - x ≤ hoverDistance ∧ sy - y ≤ hoverDistance))
    ∧ nearCorner 220 1800 900 1920 1080 = true
    ∧ nearCorner 220 1000 500 1920 1080 = false
    ∧ (∀ hoverDistance x y sx sy : Int,
        hoverStep hoverDistance x y sx sy
          = if nearCorner hoverDistance x y sx sy = true then Req.reqShow else Req.reqHide) := by
  refine ⟨?_, by decide, by decide, ?_⟩
  · intro hd x y sx sy
    simp [nearCorner]
  · intro hd x y sx sy
    by_cases h : nearCorner hd x y sx sy = true <;> simp [hoverStep, h]

/-- C6 counterexample: with the action queue not yet constructed and
root.after available, _schedule_show silently drops the request instead of
falling back to root.after as the claim states for all request origins. -/
theorem c6_schedule_show_no_fallback_cex :
    scheduleShowDispatch false true = Dispatch.dropped
    ∧ scheduleShowDispatch false true ≠ Dispatch.ranSoon
    ∧ toggleDispatch false true = Dispatch.ranSoon := by
  refine ⟨rfl, ?_, rfl⟩
  intro h
  exact Dispatch.noConfusion h

/-- C6 amended: with the queue not yet constructed, only the toggle caller
falls back to root.after(0, ...) when available (silently dropping otherwise);
the show and hide schedulers silently drop the request without raising even
when root.after is available; with the queue constructed, all three enqueue. -/
theorem c6_dispatch_fallback (queueExists rootAfterAvailable : Bool) :
    (queueExists = false → rootAfterAvailable = true →
      toggleDispatch queueExists rootAfterAvailable = Dispatch.ranSoon
      ∧ scheduleShowDispatch queueExists rootAfterAvailable = Dispatch.dropped
      ∧ scheduleHideDispatch queueExists rootAfterAvailable = Dispatch.dropped)
    ∧ (queueExists = false → rootAfterAvailable = false →
      toggleDispatch queueExists rootAfterAvailable = Dispatch.dropped
      ∧ scheduleShowDispatch queueExists rootAfterAvailable = Dispatch.dropped
      ∧ scheduleHideDispatch queueExists rootAfterAvailable = Dispatch.dropped)
    ∧ (queueExists = true →
      toggleDispatch queueExists rootAfterAvailable = Dispatch.queued
      ∧ scheduleShowDispatch queueExists rootAfterAvailable = Dispatch.queued
      ∧ scheduleHideDispatch queueExists rootAfterAvailable = Dispatch.queued) := by
  cases queueExists <;> cases rootAfterAvailable <;>
    exact ⟨fun h h2 => by simp_all [toggleDispatch, scheduleShowDispatch, scheduleHideDispatch],
           fun h h2 => by simp_all [toggleDispatch, scheduleShowDispatch, scheduleHideDispatch],
           fun h => by simp_all [toggleDispatch, scheduleShowDispatch, scheduleHideDispatch]⟩

/-- C6 amended witness: the dispatch outcomes at queueExists = false,
rootAfterAvailable = true. -/
theorem c6_dispatch_fallback_witness :
    toggleDispatch false true = Dispatch.ranSoon
    ∧ scheduleShowDispatch false true = Dispatch.dropped
    ∧ scheduleHideDispatch false true = Dispatch.dropped :=
  (c6_dispatch_fallback false true).1 rfl rfl

/-- C7 counterexample: get_holidays wraps the lookup call in no handler, so a
lookup that fails at call time makes get_holidays raise rather than return an
empty mapping. -/
theorem c7_get_holidays_raises_cex :
    get_holidays (some failingKR) [2025] = Except.error "lookup failed" := rfl

/-- C7 amended: get_holidays returns the empty mapping when the holidays
library is unavailable (import failed); when it is available it returns the
date-keyed items of a successful lookup, and propagates the exception of a
failing lookup instead of catching it. -/
theorem c7_get_holidays_behavior (years : List Nat) (kr : KRLib)
    (items : List (KRKey × String)) (e : String) :
    get_holidays none years = Except.ok []
    ∧ (kr years = Except.ok items →
        get_holidays (some kr) years
          = Except.ok (items.filterMap (fun p =>
              match p.1 with
              | Sum.inl d => some (d, p.2)
              | Sum.inr _ => none)))
    ∧ (kr years = Except.error e →
        get_holidays (some kr) years = Except.error e) := by
  refine ⟨rfl, ?_, ?_⟩ <;> intro h <;> simp [get_holidays, h]

/-- C7 amended witness: a successful single-item lookup yields the singleton
mapping, with the hypotheses discharged concretely. -/
theorem c7_get_holidays_behavior_witness :
    get_holidays (some newYearKR) [2025] = Except.ok [(⟨2025, 1, 1⟩, "New Year")] :=
  Eq.trans
    ((c7_get_holidays_behavior [2025] newYearKR
        [(Sum.inl ⟨2025, 1, 1⟩, "New Year")] "").2.1 rfl)
    rfl

/-- C8 counterexample: on a 100 x 100 screen the toggle show branch positions
the popup at the clamped (10, 10), not at the claimed anchored position
(screen_width - 300, screen_height - 220) = (-200, -120). -/
theorem c8_toggle_clamped_cex :
    (doToggle [] ⟨2025, 10, 12⟩ 2025 10 100 100 initPState).pos = (10, 10)
    ∧ ((10 : Int), (10 : Int)) ≠ ((100 : Int) - 300, (100 : Int) - 220) := by
  constructor
  · rfl
  · decide

/-- C8 amended: the toggle action run on the GUI thread hides the popup when
it is shown; otherwise it shows it at the clamped anchored position
(max 10 (screen_width - 300), max 10 (screen_height - 220)), displaying the
last-displayed (year, month) when one exists and defaulting to the current
year and month when none does. -/
theorem c8_toggle_behavior (hs : Holidays) (today : Date) (nowYear nowMonth : Nat)
    (sx sy : Int) (s : PState) :
    (s.visible = true → doToggle hs today nowYear nowMonth sx sy s = hideP s)
    ∧ (s.visible = false →
        (doToggle hs today nowYear nowMonth sx sy s).visible = true
        ∧ (doToggle hs today nowYear nowMonth sx sy s).pos
            = (max 10 (sx - 300), max 10 (sy - 220))
        ∧ (doToggle hs today nowYear nowMonth sx sy s).currentYear
            = some (pyOr s.currentYear nowYear)
        ∧ (doToggle hs today nowYear nowMonth sx sy s).currentMonth
            = some (pyOr s.currentMonth nowMonth)) := by
  constructor
  · intro h
    simp [doToggle, h]
  · intro h
    have hd : doToggle hs today nowYear nowMonth sx sy s
        = showMonth hs today s (pyOr s.currentYear nowYear) (pyOr s.currentMonth nowMonth)
            (some (max 10 (sx - 300))) (some (max 10 (sy - 220))) := by
      simp [doToggle, h]
    rw [hd]
    refine ⟨(showMonth_proj hs today s _ _ _ _).2.2.1, ?_,
      (showMonth_proj hs today s _ _ _ _).1, (showMonth_proj hs today s _ _ _ _).2.1⟩
    by_cases hc : (some (pyOr s.currentYear nowYear) == s.currentYear
        && some (pyOr s.currentMonth nowMonth) == s.currentMonth) = true <;>
      simp [showMonth, hc, geomPos]

/-- C8 amended witness: toggling a hidden fresh popup on a 1920 x 1080 screen
shows it at (1620, 860) for the current month, and toggling the shown January
2025 popup hides it. -/
theorem c8_toggle_behavior_witness :
    (initPState.visible = false ∧ sampleShown.visible = true)
    ∧ (doToggle [] ⟨2025, 10, 12⟩ 2025 10 1920 1080 initPState).visible = true
    ∧ (doToggle [] ⟨2025, 10, 12⟩ 2025 10 1920 1080 initPState).pos
        = (max 10 ((1920 : Int) - 300), max 10 ((1080 : Int) - 220))
    ∧ (doToggle [] ⟨2025, 10, 12⟩ 2025 10 1920 1080 initPState).currentYear
        = some (pyOr initPState.currentYear 2025)
    ∧ (doToggle [] ⟨2025, 10, 12⟩ 2025 10 1920 1080 initPState).currentMonth
        = some (pyOr initPState.currentMonth 10)
    ∧ doToggle [] ⟨2025, 10, 12⟩ 2025 10 1920 1080 sampleShown = hideP sampleShown :=
  ⟨⟨rfl, rfl⟩,
   (c8_toggle_behavior [] ⟨2025, 10, 12⟩ 2025 10 1920 1080 initPState).2 rfl |>.1,
   (c8_toggle_behavior [] ⟨2025, 10, 12⟩ 2025 10 1920 1080 initPState).2 rfl |>.2.1,
   (c8_toggle_behavior [] ⟨2025, 10, 12⟩ 2025 10 1920 1080 initPState).2 rfl |>.2.2.1,
   (c8_toggle_behavior [] ⟨2025, 10, 12⟩ 2025 10 1920 1080 initPState).2 rfl |>.2.2.2,
   (c8_toggle_behavior [] ⟨2025, 10, 12⟩ 2025 10 1920 1080 sampleShown).1 rfl⟩

/-- C9: CalendarPopup.destroy never raises and is idempotent: after one call
the windows are destroyed, the underlying Tk teardown of a second call fails
with a TclError, yet the second call swallows it and leaves the state as is. -/
theorem c9_destroy_idempotent (s : PState) :
    (destroyP s).destroyed = true
    ∧ tkDestroyQuit (destroyP s) = Except.error "TclError"
    ∧ destroyP (destroyP s) = destroyP s := by
  by_cases h : s.destroyed = true <;>
    simp [destroyP, tkDestroyQuit, h]

/-- C10 counterexample: the initial show_month call in TrayApp.start passes
the unclamped (screen_width - 300, screen_height - 220); on a 100 x 100
screen that is (-200, -120), whose coordinates are below the claimed on-screen
minimum of 10. -/
theorem c10_start_position_unclamped_cex :
    startInitialPos 100 100 = (-200, -120)
    ∧ ¬(10 ≤ (startInitialPos 100 100).1)
    ∧ ¬(10 ≤ (startInitialPos 100 100).2) := by decide

/-- C10 amended: the show positions computed by the toggle handler, the native
mouse-move handler, the tk poll loop and the polling hover loop are all the
clamped (max 10 (sx - 300), max 10 (sy - 220)), each coordinate at least 10
for every screen size; the initial show in TrayApp.start, however, passes the
unclamped (sx - 300, sy - 220). -/
theorem c10_anchor_positions_clamped (sx sy : Int) :
    togglePos sx sy = (max 10 (sx - 300), max 10 (sy - 220))
    ∧ wndprocMovePos sx sy = togglePos sx sy
    ∧ tkPollPos sx sy = togglePos sx sy
    ∧ hoverMonitorPos sx sy = togglePos sx sy
    ∧ 10 ≤ (togglePos sx sy).1 ∧ 10 ≤ (togglePos sx sy).2
    ∧ startInitialPos sx sy = (sx - 300, sy - 220) := by
  refine ⟨rfl, rfl, rfl, rfl, ?_, ?_, rfl⟩ <;> simp [togglePos]

end KRCal
